import Mathlib

/-!
Verification of the F1 analytics dashboard core against its specification.

This file shallowly embeds the two core subsystems — the pit-stop strategy
optimizer (`strategy_optimizer.py`) and the feature-driven race outcome
predictor (`race_predictor.py`) — as executable Lean definitions, and proves
or refutes the spec's claims about them.

Modelling conventions:
* Python ints become `ℤ` (or `ℕ` where the source value is a count),
  Python floats become `ℚ` (the source arithmetic uses only decimal
  constants, sums, products and comparisons, which are exact over `ℚ`).
* Python dicts become association lists looked up with `lookupD` /
  per-field getters, mirroring `dict.get(key, default)`.
* Calls to `random.*` / `np.random.*` are modelled by explicit oracle
  parameters (one per draw site), so every theorem quantifies over the
  possible random draws.
* `try/except` blocks are modelled by an explicit exception oracle: an
  `Option`/`Except` parameter saying whether (and with what message) the
  guarded body raises.
-/

namespace F1

/-!
### Strategy optimizer (`strategy_optimizer.py`)

All times in this section are represented in **hundredths of a second**
(centiseconds).  Every time constant in the source has at most two decimal
places (`-0.8`, `0.05`, `25.0`, `5420.5`, integer base lap times), so the
×100 rescaling is an exact, order-preserving renaming of the source's
arithmetic, and keeps every quantity in `ℤ`.
-/

/-- Tire compound names used by `StrategyOptimizer.tire_performance`. -/
inductive Compound where
  | SOFT
  | MEDIUM
  | HARD
  | INTERMEDIATE
  | WET
deriving DecidableEq, Repr

open Compound

/-- `tire_performance[c]['pace_advantage']` (centiseconds per lap vs.
medium): source values −0.8, 0.0, 0.6, 2.0, 5.0 seconds. -/
def paceAdvantage : Compound → ℤ
  | SOFT => -80
  | MEDIUM => 0
  | HARD => 60
  | INTERMEDIATE => 200
  | WET => 500

/-- `tire_performance[c]['degradation_rate']` (centiseconds per lap per
lap): source values 0.05, 0.03, 0.02, 0.08, 0.1 seconds. -/
def degradationRate : Compound → ℤ
  | SOFT => 5
  | MEDIUM => 3
  | HARD => 2
  | INTERMEDIATE => 8
  | WET => 10

/-- `tire_performance[c]['max_stint']` (laps). -/
def maxStint : Compound → ℤ
  | SOFT => 20
  | MEDIUM => 30
  | HARD => 40
  | INTERMEDIATE => 25
  | WET => 20

/-- `self.pit_stop_time = 25.0` seconds — pit stop penalty, in centiseconds. -/
def pitStopTime : ℤ := 2500

/-- One stint of a strategy: `{'compound': c, 'laps': n}`. Lap counts are
`ℤ` because they are Python int arithmetic results. -/
structure Stint where
  compound : Compound
  laps : ℤ
deriving DecidableEq, Repr

/-- A strategy candidate as built by `_generate_optimal_strategy`:
`{'stops': n, 'stints': [...], 'pit_laps': [...]}`. -/
structure Strategy where
  stops : ℤ
  stints : List Stint
  pitLaps : List ℤ
deriving DecidableEq, Repr

/-- The inner lap loop of `_calculate_strategy_time` for one stint:
`for lap in range(laps): total += base + pace_advantage + degradation_rate * lap`.
`range(laps)` is empty when `laps ≤ 0`, hence `laps.toNat`. -/
def stintTime (c : Compound) (laps : ℤ) (baseLapTime : ℤ) : ℤ :=
  ((List.range laps.toNat).map
    (fun (lap : ℕ) => baseLapTime + paceAdvantage c + degradationRate c * (lap : ℤ))).sum

/-- `StrategyOptimizer._calculate_strategy_time`: lap-by-lap stint times plus
`stops * pit_stop_time`.  (The source's `tire_performance.get(compound,
MEDIUM)` default is dead: every `Compound` is a key of the table.) -/
def calculateStrategyTime (strat : Strategy) (baseLapTime : ℤ) : ℤ :=
  (strat.stints.map (fun st => stintTime st.compound st.laps baseLapTime)).sum
    + strat.stops * pitStopTime

/-- `dict.get(key, default)` over an association list (Python dict literals
preserve insertion order; keys here are unique, so `find?` is exact). -/
def lookupD {α β : Type} [DecidableEq α] (l : List (α × β)) (k : α) (d : β) : β :=
  ((l.find? (fun p => decide (p.1 = k))).map Prod.snd).getD d

/-- Track type as used by `self.track_types`. -/
inductive TrackType where
  | street
  | permanent
deriving DecidableEq, Repr

/-- `self.track_types` mapping round number → track type. -/
def trackTypesList : List (ℤ × TrackType) :=
  [(1, .street), (2, .permanent), (3, .permanent), (4, .permanent), (5, .street),
   (6, .street), (7, .permanent), (8, .street), (9, .permanent), (10, .permanent),
   (11, .permanent), (12, .permanent), (13, .permanent), (14, .permanent),
   (15, .permanent), (16, .permanent), (17, .street), (18, .street),
   (19, .permanent), (20, .permanent), (21, .permanent), (22, .street),
   (23, .permanent), (24, .permanent)]

/-- `StrategyOptimizer._estimate_lap_time`: `lap_times.get(round_num, 90)`
(seconds in source; centiseconds here). -/
def estimateLapTime (roundNum : ℤ) : ℤ :=
  lookupD
    [(1, (8500 : ℤ)), (2, 9500), (3, 9000), (4, 9500), (5, 9200), (6, 8800),
     (7, 8200), (8, 7500), (9, 8000), (10, 7500), (11, 7000), (12, 9000),
     (13, 11000), (14, 8000), (15, 7500), (16, 8500), (17, 10500), (18, 10000),
     (19, 9500), (20, 8000), (21, 7500), (22, 9500), (23, 8500), (24, 9500)]
    roundNum 9000

/-- `StrategyOptimizer._estimate_race_length`: `race_lengths.get(round_num, 60)`. -/
def estimateRaceLength (roundNum : ℤ) : ℤ :=
  lookupD
    [(1, (58 : ℤ)), (2, 56), (3, 53), (4, 57), (5, 50), (6, 57), (7, 63), (8, 78),
     (9, 66), (10, 70), (11, 71), (12, 52), (13, 44), (14, 70), (15, 72),
     (16, 53), (17, 51), (18, 61), (19, 56), (20, 71), (21, 71), (22, 50),
     (23, 57), (24, 58)] roundNum 60

/-- The 1-stop enumeration of `_generate_optimal_strategy` (lines 95–111):
ordered pairs of distinct compounds; `pit_lap = total_laps // 2 +
randint(-5, 5)` clamped into `[10, total_laps - 10]`.  The fresh random draw
per combination is the oracle `j1`. -/
def oneStopCandidates (totalLaps : ℤ) (baseLapTime : ℤ) (compounds : List Compound)
    (j1 : Compound → Compound → ℤ) : List (Strategy × ℤ) :=
  compounds.flatMap (fun c1 =>
    (compounds.filter (fun c2 => decide (c1 ≠ c2))).map (fun c2 =>
      let pitLap := max 10 (min (totalLaps.fdiv 2 + j1 c1 c2) (totalLaps - 10))
      let strat : Strategy :=
        ⟨1, [⟨c1, pitLap⟩, ⟨c2, totalLaps - pitLap⟩], [pitLap]⟩
      (strat, calculateStrategyTime strat baseLapTime)))

/-- The 2-stop enumeration of `_generate_optimal_strategy` (lines 114–134):
all compound triples (no distinctness constraint); `pit1 = total_laps // 3 +
randint(-3, 3)` clamped into `[8, total_laps - 15]`, `pit2 = 2 * total_laps
// 3 + randint(-3, 3)` clamped into `[pit1 + 8, total_laps - 8]`.  The two
fresh draws per combination are the oracles `j2a`, `j2b`. -/
def twoStopCandidates (totalLaps : ℤ) (baseLapTime : ℤ) (compounds : List Compound)
    (j2a j2b : Compound → Compound → Compound → ℤ) : List (Strategy × ℤ) :=
  compounds.flatMap (fun c1 =>
    compounds.flatMap (fun c2 =>
      compounds.map (fun c3 =>
        let pit1 := max 8 (min (totalLaps.fdiv 3 + j2a c1 c2 c3) (totalLaps - 15))
        let pit2 := max (pit1 + 8) (min ((2 * totalLaps).fdiv 3 + j2b c1 c2 c3) (totalLaps - 8))
        let strat : Strategy :=
          ⟨2, [⟨c1, pit1⟩, ⟨c2, pit2 - pit1⟩, ⟨c3, totalLaps - pit2⟩], [pit1, pit2]⟩
        (strat, calculateStrategyTime strat baseLapTime))))

/-- Python's `min(strategies, key=lambda x: x[1])`: first element attaining
the minimal time (`<` keeps the earlier element on ties). -/
def minByTime (l : List (Strategy × ℤ)) : Option (Strategy × ℤ) :=
  match l with
  | [] => none
  | x :: xs => some (xs.foldl (fun best y => if y.2 < best.2 then y else best) x)

/-- The record `_generate_optimal_strategy` returns: the winning candidate's
keys plus `total_time` and `time_penalty`. -/
structure StrategyResult where
  stops : ℤ
  stints : List Stint
  pitLaps : List ℤ
  totalTime : ℤ
  timePenalty : ℤ
deriving DecidableEq, Repr

/-- `StrategyOptimizer._generate_optimal_strategy` (lines 88–153): enumerate
the 1-stop and 2-stop candidates, pick the minimal-time one, and fill in
`total_time` / `time_penalty`; the trailing fallback runs only if the
candidate list is empty (i.e. `compounds` is empty). -/
def generateOptimalStrategy (totalLaps : ℤ) (baseLapTime : ℤ) (compounds : List Compound)
    (j1 : Compound → Compound → ℤ) (j2a j2b : Compound → Compound → Compound → ℤ) :
    StrategyResult :=
  match minByTime (oneStopCandidates totalLaps baseLapTime compounds j1
    ++ twoStopCandidates totalLaps baseLapTime compounds j2a j2b) with
  | some (best, t) =>
      ⟨best.stops, best.stints, best.pitLaps, t, (best.pitLaps.length : ℤ) * pitStopTime⟩
  | none =>
      ⟨1, [⟨MEDIUM, totalLaps.fdiv 2⟩, ⟨HARD, totalLaps - totalLaps.fdiv 2⟩],
       [totalLaps.fdiv 2], baseLapTime * totalLaps + pitStopTime, pitStopTime⟩

/-- Available compounds in `optimize_pit_strategy` (lines 60–63): both
branches of the street/permanent test yield the same list, as in source. -/
def availableCompoundsFor (t : TrackType) : List Compound :=
  if t = TrackType.street then [SOFT, MEDIUM, HARD] else [SOFT, MEDIUM, HARD]

/-- The record `optimize_pit_strategy` returns.  `actualStrategy` abstracts
the external-telemetry result `_get_actual_strategy_data`: `.ok t` is a
loaded strategy with total time `t`, `.error msg` is its error payload. -/
structure OptimizeResult where
  optimalStrategy : StrategyResult
  actualStrategy : Except String ℤ
  timeSavings : ℤ
  availableCompounds : List Compound
deriving Repr

/-- `StrategyOptimizer._generate_fallback_result` (lines 298–316). -/
def generateFallbackResult (driver : String) : OptimizeResult :=
  { optimalStrategy := ⟨1, [⟨MEDIUM, 30⟩, ⟨HARD, 28⟩], [30], 542050, 2500⟩,
    actualStrategy := .error ("No race data available for " ++ driver ++ " in this session"),
    timeSavings := 0,
    availableCompounds := [SOFT, MEDIUM, HARD] }

/-- `StrategyOptimizer.optimize_pit_strategy` (lines 51–86).  `exc` is the
exception oracle for the `try` body (`some msg` means some step raised);
`actual` is the telemetry collaborator's result; `randSavings` is the
`random.uniform(-10, 30)` draw used when actual data is unavailable. -/
def optimizePitStrategy (exc : Option String) (_year roundNum : ℤ) (driver : String)
    (actual : Except String ℤ) (randSavings : ℤ)
    (j1 : Compound → Compound → ℤ) (j2a j2b : Compound → Compound → Compound → ℤ) :
    OptimizeResult :=
  match exc with
  | some _ => generateFallbackResult driver
  | none =>
      let totalLaps := estimateRaceLength roundNum
      let baseLapTime := estimateLapTime roundNum
      let trackType := lookupD trackTypesList roundNum TrackType.permanent
      let compounds := availableCompoundsFor trackType
      let opt := generateOptimalStrategy totalLaps baseLapTime compounds j1 j2a j2b
      let timeSavings :=
        match actual with
        | .ok t => t - opt.totalTime
        | .error _ => randSavings
      { optimalStrategy := opt, actualStrategy := actual,
        timeSavings := timeSavings, availableCompounds := compounds }

/-- Constant-zero jitter oracle (a legal value of `randint(-5, 5)` etc.). -/
def zeroJ1 : Compound → Compound → ℤ := fun _ _ => 0

/-- Constant-zero jitter oracle for the 2-stop draws. -/
def zeroJ2 : Compound → Compound → Compound → ℤ := fun _ _ _ => 0

/-- Total of the stint lap counts of a strategy. -/
def stintLapSum (stints : List Stint) : ℤ :=
  (stints.map Stint.laps).sum

/-!
### Race outcome predictor (`race_predictor.py`)

Values here are `ℚ` (exactly representing the source's decimal constants).
Gaussian/uniform draws (`np.random.normal`, `np.random.random`) are again
modelled as explicit parameters.
-/

/-- One entry of `self.driver_ratings`: the nine named skill scalars, in
source key order. -/
structure DriverRating where
  skill : ℚ
  consistency : ℚ
  raceCraft : ℚ
  qualifying : ℚ
  wetWeather : ℚ
  overtaking : ℚ
  tireManagement : ℚ
  pressureHandling : ℚ
  championshipExperience : ℚ
deriving DecidableEq, Repr

/-- `self.driver_ratings` (race_predictor.py lines 28–144), fields in order
skill, consistency, race_craft, qualifying, wet_weather, overtaking,
tire_management, pressure_handling, championship_experience. -/
def driverRatingsList : List (String × DriverRating) :=
  [("VER", ⟨98, 95, 96, 92, 97, 94, 95, 97, 98⟩),
   ("LEC", ⟨95, 88, 90, 97, 92, 89, 88, 89, 85⟩),
   ("HAM", ⟨96, 92, 98, 89, 96, 95, 94, 98, 99⟩),
   ("RUS", ⟨91, 89, 87, 93, 88, 85, 86, 87, 75⟩),
   ("NOR", ⟨90, 87, 85, 88, 84, 87, 86, 85, 80⟩),
   ("PIA", ⟨87, 84, 82, 86, 81, 83, 84, 82, 70⟩),
   ("SAI", ⟨88, 86, 87, 85, 85, 84, 87, 86, 82⟩),
   ("ALO", ⟨93, 91, 95, 87, 93, 92, 94, 95, 95⟩),
   ("STR", ⟨78, 79, 80, 78, 79, 76, 78, 75, 78⟩),
   ("ALB", ⟨84, 83, 83, 82, 82, 80, 83, 81, 77⟩),
   ("OCO", ⟨85, 85, 86, 83, 84, 82, 85, 83, 79⟩),
   ("HUL", ⟨86, 88, 87, 86, 86, 83, 87, 84, 82⟩),
   ("TSU", ⟨81, 80, 79, 81, 78, 77, 79, 78, 74⟩),
   ("LAW", ⟨78, 77, 76, 78, 75, 74, 76, 75, 70⟩),
   ("GAS", ⟨86, 84, 84, 85, 83, 81, 84, 82, 78⟩),
   ("DOO", ⟨76, 75, 74, 76, 73, 72, 74, 72, 65⟩),
   ("MAG", ⟨82, 81, 82, 80, 80, 78, 81, 79, 76⟩),
   ("BOT", ⟨87, 87, 86, 88, 87, 84, 86, 85, 85⟩),
   ("ZHO", ⟨77, 76, 75, 77, 74, 73, 75, 74, 72⟩),
   ("ANT", ⟨83, 78, 76, 85, 79, 77, 80, 75, 60⟩),
   ("HAD", ⟨79, 76, 74, 80, 75, 73, 77, 73, 65⟩),
   ("COL", ⟨77, 74, 72, 78, 73, 71, 75, 71, 62⟩),
   ("BEA", ⟨75, 73, 71, 76, 72, 69, 74, 70, 60⟩)]

/-- `self.driver_ratings.get(driver)`: `none` models the empty dict `{}`
returned by `.get(driver, {})`. -/
def driverRatings? (driver : String) : Option DriverRating :=
  (driverRatingsList.find? (fun p => decide (p.1 = driver))).map Prod.snd

/-- `driver_rating.get(field, 75)`: field of the rating record, defaulting
to 75 when the driver is unknown (empty dict). -/
def ratingGetD (o : Option DriverRating) (f : DriverRating → ℚ) : ℚ :=
  match o with
  | some r => f r
  | none => 75

/-- One entry of `self.team_performance`, fields in source key order. -/
structure TeamPerformance where
  carPerformance : ℚ
  strategyRating : ℚ
  pitStops : ℚ
  reliability : ℚ
deriving DecidableEq, Repr

/-- `self.team_performance` (lines 147–178); `strategyRating` is the source
key `'strategy'`. -/
def teamPerformanceList : List (String × TeamPerformance) :=
  [("Red Bull Racing Honda RBPT", ⟨92, 95, 98, 88⟩),
   ("McLaren Mercedes", ⟨95, 90, 92, 92⟩),
   ("Ferrari", ⟨89, 85, 88, 85⟩),
   ("Mercedes", ⟨87, 92, 95, 94⟩),
   ("Aston Martin Aramco Mercedes", ⟨82, 86, 85, 88⟩),
   ("Alpine Renault", ⟨78, 82, 83, 86⟩),
   ("Haas Ferrari", ⟨80, 78, 80, 84⟩),
   ("Racing Bulls Honda RBPT", ⟨79, 81, 85, 82⟩),
   ("Williams Mercedes", ⟨76, 79, 82, 81⟩),
   ("Kick Sauber Ferrari", ⟨74, 77, 78, 79⟩)]

/-- `self.team_performance.get(team)`; `none` models the empty dict. -/
def teamPerformance? (team : String) : Option TeamPerformance :=
  (teamPerformanceList.find? (fun p => decide (p.1 = team))).map Prod.snd

/-- `team_perf.get(field, 75)`. -/
def teamGetD (o : Option TeamPerformance) (f : TeamPerformance → ℚ) : ℚ :=
  match o with
  | some r => f r
  | none => 75

/-- One entry of `self.track_characteristics`, fields in source key order. -/
structure TrackChar where
  powerSensitivity : ℚ
  aeroSensitivity : ℚ
  tireDegradation : ℚ
  overtakingDifficulty : ℚ
  weatherVariability : ℚ
  trackEvolution : ℚ
  safetyCarProbability : ℚ
  redFlagProbability : ℚ
deriving DecidableEq, Repr

/-- `self.track_characteristics` (lines 181–302), fields in order power,
aero, tire degradation, overtaking difficulty, weather variability, track
evolution, safety-car probability, red-flag probability. -/
def trackCharacteristicsList : List (ℤ × TrackChar) :=
  [(1, ⟨0.7, 0.6, 0.8, 0.6, 0.4, 0.7, 0.3, 0.1⟩),
   (2, ⟨0.8, 0.7, 0.7, 0.4, 0.6, 0.6, 0.2, 0.05⟩),
   (3, ⟨0.6, 0.9, 0.6, 0.7, 0.7, 0.5, 0.2, 0.1⟩),
   (4, ⟨0.8, 0.6, 0.9, 0.3, 0.2, 0.8, 0.15, 0.05⟩),
   (5, ⟨0.9, 0.5, 0.8, 0.8, 0.1, 0.6, 0.4, 0.15⟩),
   (6, ⟨0.7, 0.7, 0.8, 0.5, 0.6, 0.7, 0.3, 0.1⟩),
   (7, ⟨0.6, 0.8, 0.7, 0.8, 0.5, 0.6, 0.25, 0.1⟩),
   (8, ⟨0.3, 0.9, 0.5, 0.95, 0.3, 0.9, 0.6, 0.2⟩),
   (9, ⟨0.7, 0.8, 0.7, 0.6, 0.4, 0.5, 0.15, 0.05⟩),
   (10, ⟨0.8, 0.6, 0.8, 0.4, 0.6, 0.7, 0.35, 0.15⟩),
   (11, ⟨0.9, 0.5, 0.9, 0.3, 0.6, 0.6, 0.2, 0.08⟩),
   (12, ⟨0.8, 0.7, 0.8, 0.4, 0.8, 0.6, 0.25, 0.1⟩),
   (13, ⟨0.9, 0.6, 0.6, 0.3, 0.7, 0.5, 0.3, 0.15⟩),
   (14, ⟨0.5, 0.9, 0.9, 0.9, 0.5, 0.8, 0.2, 0.08⟩),
   (15, ⟨0.7, 0.8, 0.8, 0.6, 0.6, 0.7, 0.25, 0.1⟩),
   (16, ⟨0.9, 0.4, 0.7, 0.2, 0.4, 0.5, 0.2, 0.08⟩),
   (17, ⟨0.9, 0.5, 0.8, 0.6, 0.3, 0.7, 0.5, 0.2⟩),
   (18, ⟨0.6, 0.8, 0.9, 0.8, 0.6, 0.8, 0.4, 0.15⟩),
   (19, ⟨0.8, 0.7, 0.8, 0.4, 0.5, 0.7, 0.25, 0.1⟩),
   (20, ⟨0.7, 0.8, 0.9, 0.5, 0.4, 0.6, 0.3, 0.12⟩),
   (21, ⟨0.7, 0.8, 0.8, 0.4, 0.8, 0.7, 0.4, 0.2⟩),
   (22, ⟨0.9, 0.5, 0.8, 0.4, 0.2, 0.6, 0.3, 0.1⟩),
   (23, ⟨0.8, 0.7, 0.8, 0.5, 0.2, 0.6, 0.2, 0.08⟩),
   (24, ⟨0.8, 0.7, 0.8, 0.5, 0.2, 0.6, 0.25, 0.1⟩)]

/-- `self.track_characteristics.get(round_num)`; `none` models `{}`. -/
def trackCharacteristics? (roundNum : ℤ) : Option TrackChar :=
  (trackCharacteristicsList.find? (fun p => decide (p.1 = roundNum))).map Prod.snd

/-- `track_char.get(field, default)`. -/
def trackGetD (o : Option TrackChar) (f : TrackChar → ℚ) (d : ℚ) : ℚ :=
  match o with
  | some r => f r
  | none => d

/-- `self.driver_team_synergy` (lines 305–314). -/
def driverTeamSynergyList : List ((String × String) × ℚ) :=
  [(("VER", "Red Bull Racing Honda RBPT"), 1.05),
   (("LEC", "Ferrari"), 1.03),
   (("HAM", "Ferrari"), 0.98),
   (("RUS", "Mercedes"), 1.02),
   (("NOR", "McLaren Mercedes"), 1.04),
   (("PIA", "McLaren Mercedes"), 1.01),
   (("ALO", "Aston Martin Aramco Mercedes"), 1.03)]

/-- `self.driver_team_synergy.get((driver, team), 1.0)`. -/
def synergyGet (driver team : String) : ℚ :=
  lookupD driverTeamSynergyList (driver, team) 1

/-- The dict literal inside `get_driver_team` (lines 452–473). -/
def driverTeamList : List (String × String) :=
  [("VER", "Red Bull Racing Honda RBPT"),
   ("LAW", "Red Bull Racing Honda RBPT"),
   ("LEC", "Ferrari"),
   ("HAM", "Ferrari"),
   ("RUS", "Mercedes"),
   ("ANT", "Mercedes"),
   ("NOR", "McLaren Mercedes"),
   ("PIA", "McLaren Mercedes"),
   ("ALO", "Aston Martin Aramco Mercedes"),
   ("STR", "Aston Martin Aramco Mercedes"),
   ("GAS", "Alpine Renault"),
   ("DOO", "Alpine Renault"),
   ("HUL", "Haas Ferrari"),
   ("OCO", "Haas Ferrari"),
   ("ALB", "Williams Mercedes"),
   ("SAI", "Williams Mercedes"),
   ("TSU", "Racing Bulls Honda RBPT"),
   ("HAD", "Racing Bulls Honda RBPT"),
   ("COL", "Kick Sauber Ferrari"),
   ("BEA", "Kick Sauber Ferrari")]

/-- The team mapping before the `'Unknown Team'` default is applied. -/
def driverTeam? (driver : String) : Option String :=
  (driverTeamList.find? (fun p => decide (p.1 = driver))).map Prod.snd

/-- `EnhancedRacePredictor.get_driver_team`:
`driver_team_mapping.get(driver, 'Unknown Team')`. -/
def getDriverTeam (driver : String) : String :=
  (driverTeam? driver).getD "Unknown Team"

/-- Python `int(x)`: truncation toward zero. -/
def pyInt (q : ℚ) : ℤ :=
  if 0 ≤ q then ⌊q⌋ else ⌈q⌉

/-- `get_historical_performance`'s simulated average finishing position
(lines 325–338): raw skill weighted by qualifying aptitude when the track's
overtaking difficulty exceeds 0.7 and by race craft otherwise, mapped
linearly to a position, plus the `np.random.normal(0, 2)` draw `noise`,
clamped into [1, 20] by `max(1, min(20, ·))`. -/
def getHistoricalAvgPosition (driver : String) (trackId : ℤ) (noise : ℚ) : ℚ :=
  let driverRating := driverRatings? driver
  let trackChar := trackCharacteristics? trackId
  let basePerformance := ratingGetD driverRating DriverRating.skill / 100
  let performanceAdj :=
    if trackGetD trackChar TrackChar.overtakingDifficulty 0.5 > 0.7 then
      ratingGetD driverRating DriverRating.qualifying / 100
    else
      ratingGetD driverRating DriverRating.raceCraft / 100
  max 1 (min 20 (10 - (basePerformance * performanceAdj - 0.5) * 15 + noise))

/-- The record returned by `get_historical_performance`. -/
structure HistPerf where
  avgPosition : ℚ
  avgGrid : ℚ
  podiums : ℤ
  wins : ℤ
deriving DecidableEq, Repr

/-- `EnhancedRacePredictor.get_historical_performance` (lines 316–345);
`noise1` is the `normal(0, 2)` draw for the position, `noise2` the
`normal(0, 1.5)` draw for the grid. -/
def getHistoricalPerformance (driver : String) (trackId : ℤ) (noise1 noise2 : ℚ)
    (yearsBack : ℤ) : HistPerf :=
  let p := getHistoricalAvgPosition driver trackId noise1
  { avgPosition := p,
    avgGrid := p + noise2,
    podiums := max 0 (pyInt ((1 - p / 20) * yearsBack * 2)),
    wins := max 0 (pyInt ((1 - p / 20) * yearsBack * 0.5)) }

/-- Weather condition drawn by `calculate_dynamic_factors`. -/
inductive Weather where
  | wet
  | mixed
  | dry
deriving DecidableEq, Repr

/-- The record returned by `calculate_dynamic_factors`. -/
structure DynamicFactors where
  seasonProgress : ℚ
  championshipPressure : ℚ
  weatherCondition : Weather
  safetyCarProbability : ℚ
deriving DecidableEq, Repr

/-- `EnhancedRacePredictor.calculate_dynamic_factors` (lines 351–381); `u1`
and `u2` are the two `np.random.random()` draws of the weather simulation. -/
def calcDynamicFactors (roundNum : ℤ) (u1 u2 : ℚ) : DynamicFactors :=
  let trackChar := trackCharacteristics? roundNum
  let weatherVar := trackGetD trackChar TrackChar.weatherVariability 0.5
  { seasonProgress := (roundNum : ℚ) / 24,
    championshipPressure :=
      if roundNum > 15 then 1.2 else if roundNum > 10 then 1.0 else 0.8,
    weatherCondition :=
      if u1 < weatherVar * 0.3 then (if u2 < 0.7 then .wet else .mixed) else .dry,
    safetyCarProbability := trackGetD trackChar TrackChar.safetyCarProbability 0.25 }

/-- The per-driver loop body of `build_feature_matrix` (lines 391–445):
the fixed-order feature vector for one competitor.  `_year` is the unused
`year` argument of the source; `noise1`/`noise2` are the Gaussian draws
inside `get_historical_performance`; `dyn` is the dynamic-factors record
computed once per matrix call. -/
def buildFeatureVector (driver : String) (_year roundNum : ℤ) (noise1 noise2 : ℚ)
    (dyn : DynamicFactors) : List ℚ :=
  let trackChar := trackCharacteristics? roundNum
  let driverRating := driverRatings? driver
  let historical := getHistoricalPerformance driver roundNum noise1 noise2 3
  let team := getDriverTeam driver
  let teamPerf := teamPerformance? team
  let synergy := synergyGet driver team
  [ratingGetD driverRating DriverRating.skill / 100,
   ratingGetD driverRating DriverRating.consistency / 100,
   ratingGetD driverRating DriverRating.raceCraft / 100,
   ratingGetD driverRating DriverRating.qualifying / 100,
   ratingGetD driverRating DriverRating.wetWeather / 100,
   ratingGetD driverRating DriverRating.overtaking / 100,
   ratingGetD driverRating DriverRating.tireManagement / 100,
   ratingGetD driverRating DriverRating.pressureHandling / 100,
   ratingGetD driverRating DriverRating.championshipExperience / 100,
   teamGetD teamPerf TeamPerformance.carPerformance / 100,
   teamGetD teamPerf TeamPerformance.strategyRating / 100,
   teamGetD teamPerf TeamPerformance.pitStops / 100,
   teamGetD teamPerf TeamPerformance.reliability / 100,
   trackGetD trackChar TrackChar.powerSensitivity 0.5,
   trackGetD trackChar TrackChar.aeroSensitivity 0.5,
   trackGetD trackChar TrackChar.tireDegradation 0.5,
   trackGetD trackChar TrackChar.overtakingDifficulty 0.5,
   trackGetD trackChar TrackChar.weatherVariability 0.5,
   trackGetD trackChar TrackChar.trackEvolution 0.5,
   trackGetD trackChar TrackChar.safetyCarProbability 0.25,
   min (historical.avgPosition / 20) 1,
   min (historical.avgGrid / 20) 1,
   min ((historical.podiums : ℚ) / 10) 1,
   min ((historical.wins : ℚ) / 5) 1,
   dyn.seasonProgress,
   dyn.championshipPressure,
   if dyn.weatherCondition = Weather.wet then 1 else 0,
   if dyn.weatherCondition = Weather.mixed then 1 else 0,
   synergy]

/-- Spec-side decomposition (§4.1): the competitor-rating block — the 9
rating scalars normalized by 100. -/
def driverFeatureBlock (driver : String) : List ℚ :=
  [ratingGetD (driverRatings? driver) DriverRating.skill / 100,
   ratingGetD (driverRatings? driver) DriverRating.consistency / 100,
   ratingGetD (driverRatings? driver) DriverRating.raceCraft / 100,
   ratingGetD (driverRatings? driver) DriverRating.qualifying / 100,
   ratingGetD (driverRatings? driver) DriverRating.wetWeather / 100,
   ratingGetD (driverRatings? driver) DriverRating.overtaking / 100,
   ratingGetD (driverRatings? driver) DriverRating.tireManagement / 100,
   ratingGetD (driverRatings? driver) DriverRating.pressureHandling / 100,
   ratingGetD (driverRatings? driver) DriverRating.championshipExperience / 100]

/-- Spec-side decomposition (§4.1): the team-rating block — the 4 team
scalars normalized by 100. -/
def teamFeatureBlock (team : String) : List ℚ :=
  [teamGetD (teamPerformance? team) TeamPerformance.carPerformance / 100,
   teamGetD (teamPerformance? team) TeamPerformance.strategyRating / 100,
   teamGetD (teamPerformance? team) TeamPerformance.pitStops / 100,
   teamGetD (teamPerformance? team) TeamPerformance.reliability / 100]

/-- Spec-side decomposition (§4.1): the track-profile block actually
emitted by the builder — 7 scalars (red-flag probability is not among
them). -/
def trackFeatureBlock (roundNum : ℤ) : List ℚ :=
  [trackGetD (trackCharacteristics? roundNum) TrackChar.powerSensitivity 0.5,
   trackGetD (trackCharacteristics? roundNum) TrackChar.aeroSensitivity 0.5,
   trackGetD (trackCharacteristics? roundNum) TrackChar.tireDegradation 0.5,
   trackGetD (trackCharacteristics? roundNum) TrackChar.overtakingDifficulty 0.5,
   trackGetD (trackCharacteristics? roundNum) TrackChar.weatherVariability 0.5,
   trackGetD (trackCharacteristics? roundNum) TrackChar.trackEvolution 0.5,
   trackGetD (trackCharacteristics? roundNum) TrackChar.safetyCarProbability 0.25]

/-- Spec-side decomposition (§4.1): the historical-performance block — each
entry upper-clipped to at most 1 by `min(·, 1.0)`. -/
def histFeatureBlock (h : HistPerf) : List ℚ :=
  [min (h.avgPosition / 20) 1,
   min (h.avgGrid / 20) 1,
   min ((h.podiums : ℚ) / 10) 1,
   min ((h.wins : ℚ) / 5) 1]

/-- Spec-side decomposition (§4.1): the two one-hot weather flags (wet,
mixed; dry is the implicit zero case). -/
def weatherFlags (w : Weather) : List ℚ :=
  [if w = Weather.wet then 1 else 0,
   if w = Weather.mixed then 1 else 0]

/-- Population variance `np.var`, over `ℚ` (callers pass nonempty lists). -/
def varianceQ (l : List ℚ) : ℚ :=
  ((l.map (fun x => (x - l.sum / l.length) ^ 2)).sum) / l.length

/-- `EnhancedRacePredictor._calculate_model_confidence` (lines 691–699) on
the extracted win probabilities: `max(0, min(1, 1 - variance * 4))`. -/
def calculateModelConfidence (winProbs : List ℚ) : ℚ :=
  max 0 (min 1 (1 - varianceQ winProbs * 4))

/-- Sample count produced by the primary pass of `_generate_training_data`
(lines 527–572): each of the `n_samples` iterations either raises inside its
`try` (`none`, the `except: continue` path) or appends some number of
per-driver samples (`some k`). -/
def primaryPassCount (iters : List (Option ℕ)) : ℕ :=
  (iters.filterMap id).sum

/-- The fallback top-up loop of `_generate_training_data` (lines 575–606):
each iteration either raises in its `try` (`continue`) or appends up to 10
basic samples, stopping as soon as 100 samples exist.  One `Bool` per
iteration says whether that iteration raised. -/
def fallbackLoop : List Bool → ℕ → ℕ
  | [], c => c
  | raises :: rest, c =>
      if 100 ≤ c then c
      else fallbackLoop rest (if raises then c else min (c + 10) 100)

/-- Sample count returned by `_generate_training_data`: the primary pass,
then — only if fewer than 100 samples — the fallback pass over
`range(100 - len(X))` iterations.  The function returns whatever count
results; it never raises on a shortfall. -/
def generateTrainingDataCount (primary : List (Option ℕ)) (fb : List Bool) : ℕ :=
  if primaryPassCount primary < 100 then
    fallbackLoop (fb.take (100 - primaryPassCount primary)) (primaryPassCount primary)
  else
    primaryPassCount primary

/-- `EnhancedRacePredictor.train_models` (lines 476–515) control flow: fit
the four regressors and the scaler on the generated data and return `True`;
any exception during fitting is caught and `False` is returned.  There is
no check of the sample count anywhere — `_sampleCount` is unused, exactly
as in the source. -/
def trainModels (_sampleCount : ℕ) (fitRaises : Bool) : Bool :=
  if fitRaises then false else true

/-!
### Theorems
-/

/-- Summing a mapped `List.range` agrees with the `Finset.range` sum. -/
theorem sum_map_range_int (f : ℕ → ℤ) (n : ℕ) :
    ((List.range n).map f).sum = Finset.sum (Finset.range n) f := by
  induction n with
  | zero => simp
  | succ n ih =>
      rw [List.range_succ, List.map_append, List.sum_append, Finset.sum_range_succ, ih]
      simp

/-- C6 (confirmed): the simulated total race time of a strategy candidate is
the sum over stints, lap by lap, of base lap time + the compound's pace
delta + the compound's degradation rate times the lap index within the
stint, plus the number of stops times the fixed pit-loss constant (times in
centiseconds). -/
theorem calculateStrategyTime_eq_lap_sum (strat : Strategy) (baseLapTime : ℤ) :
    calculateStrategyTime strat baseLapTime =
      (strat.stints.map (fun st =>
        Finset.sum (Finset.range st.laps.toNat)
          (fun (lap : ℕ) => baseLapTime + paceAdvantage st.compound
            + degradationRate st.compound * (lap : ℤ)))).sum
      + strat.stops * pitStopTime := by
  simp only [calculateStrategyTime, stintTime, sum_map_range_int]

/-- The fold inside `minByTime` returns the accumulator or a list element. -/
theorem foldl_min_mem (xs : List (Strategy × ℤ)) (a : Strategy × ℤ) :
    xs.foldl (fun best y => if y.2 < best.2 then y else best) a ∈ a :: xs := by
  induction xs generalizing a with
  | nil => simp
  | cons x xs ih =>
      simp only [List.foldl_cons]
      rcases List.mem_cons.mp (ih (if x.2 < a.2 then x else a)) with h1 | h1
      · rw [h1]
        split
        · exact List.mem_cons_of_mem _ (List.mem_cons_self _ _)
        · exact List.mem_cons_self _ _
      · exact List.mem_cons_of_mem _ (List.mem_cons_of_mem _ h1)

/-- `minByTime` selects an element of its input list. -/
theorem minByTime_mem {l : List (Strategy × ℤ)} {x : Strategy × ℤ}
    (h : minByTime l = some x) : x ∈ l := by
  cases l with
  | nil => simp [minByTime] at h
  | cons y ys =>
      simp only [minByTime, Option.some.injEq] at h
      rw [← h]
      exact foldl_min_mem ys y

/-- Every 1-stop candidate's stint lap counts sum to the total lap count. -/
theorem oneStop_stintLapSum {totalLaps baseLapTime : ℤ} {compounds : List Compound}
    {j1 : Compound → Compound → ℤ} {c : Strategy × ℤ}
    (h : c ∈ oneStopCandidates totalLaps baseLapTime compounds j1) :
    stintLapSum c.1.stints = totalLaps := by
  simp only [oneStopCandidates, List.mem_flatMap, List.mem_map, List.mem_filter] at h
  obtain ⟨c1, -, c2, -, rfl⟩ := h
  simp only [stintLapSum, List.map_cons, List.map_nil, List.sum_cons, List.sum_nil]
  ring

/-- Every 2-stop candidate's stint lap counts sum to the total lap count. -/
theorem twoStop_stintLapSum {totalLaps baseLapTime : ℤ} {compounds : List Compound}
    {j2a j2b : Compound → Compound → Compound → ℤ} {c : Strategy × ℤ}
    (h : c ∈ twoStopCandidates totalLaps baseLapTime compounds j2a j2b) :
    stintLapSum c.1.stints = totalLaps := by
  simp only [twoStopCandidates, List.mem_flatMap, List.mem_map] at h
  obtain ⟨c1, -, c2, -, c3, -, rfl⟩ := h
  simp only [stintLapSum, List.map_cons, List.map_nil, List.sum_cons, List.sum_nil]
  ring

/-- C1 (amended, proved part): for every strategy search over total laps L —
whatever the random jitter draws, the base lap time and the compound list —
the candidate returned as optimal has stint lap counts summing exactly
to L. -/
theorem generateOptimalStrategy_stint_sum (totalLaps baseLapTime : ℤ)
    (compounds : List Compound) (j1 : Compound → Compound → ℤ)
    (j2a j2b : Compound → Compound → Compound → ℤ) :
    stintLapSum (generateOptimalStrategy totalLaps baseLapTime compounds j1 j2a j2b).stints
      = totalLaps := by
  unfold generateOptimalStrategy
  split
  · next best t heq =>
      rcases List.mem_append.mp (minByTime_mem heq) with h | h
      · exact oneStop_stintLapSum h
      · exact twoStop_stintLapSum h
  · next heq =>
      simp only [stintLapSum, List.map_cons, List.map_nil, List.sum_cons, List.sum_nil]
      ring

set_option maxRecDepth 1000000 in
/-- C1 (counterexample): at total laps 58 (round 1), base lap time 85 s, the
usual compound list and all-zero jitter draws, the strategy returned to
callers runs SOFT on all three stints — only one distinct compound, so the
claimed "at least two distinct compounds" invariant fails. -/
theorem generateOptimalStrategy_single_compound :
    ((generateOptimalStrategy 58 8500 [SOFT, MEDIUM, HARD] zeroJ1 zeroJ2 zeroJ2).stints.map
        Stint.compound) = [SOFT, SOFT, SOFT]
    ∧ ¬ 2 ≤ (((generateOptimalStrategy 58 8500 [SOFT, MEDIUM, HARD] zeroJ1 zeroJ2
        zeroJ2).stints.map Stint.compound).dedup.length) := by
  constructor <;> decide

/-- C4 (confirmed): for every input (year, round, competitor) and every
state of the external telemetry and random draws, if an exception is raised
anywhere inside the optimizer body (exception oracle `some e`), then
`optimize_pit_strategy` returns exactly the fixed fallback result — whose
optimal strategy is 1 stop with first stint MEDIUM and second stint HARD —
and never propagates the exception (the function is total). -/
theorem optimizePitStrategy_exception_fallback (e : String) (year roundNum : ℤ)
    (driver : String) (actual : Except String ℤ) (randSavings : ℤ)
    (j1 : Compound → Compound → ℤ) (j2a j2b : Compound → Compound → Compound → ℤ) :
    optimizePitStrategy (some e) year roundNum driver actual randSavings j1 j2a j2b
      = generateFallbackResult driver
    ∧ (generateFallbackResult driver).optimalStrategy.stops = 1
    ∧ ((generateFallbackResult driver).optimalStrategy.stints.map Stint.compound)
      = [MEDIUM, HARD] :=
  ⟨rfl, rfl, rfl⟩

set_option maxRecDepth 1000000 in
/-- C5 (counterexample): at year 2024, round 1, driver VER, with actual data
available and an actual total time of 10 000 s (1 000 000 cs), the returned
`time_savings` is about 5039.8 s — far beyond the claimed +30 s clip, so no
clipping to [−30 s, +30 s] takes place. -/
theorem optimizePitStrategy_timeSavings_exceeds_band :
    3000 < (optimizePitStrategy none 2024 1 "VER" (Except.ok 1000000) 0
      zeroJ1 zeroJ2 zeroJ2).timeSavings := by
  decide

/-- C5 (amended): whenever actual stint/lap data is available, the
`time_savings` value returned by `optimize_pit_strategy` equals the actual
strategy's total time minus the optimal strategy's total time, with no
clipping applied. -/
theorem optimizePitStrategy_timeSavings_eq_diff (year roundNum : ℤ) (driver : String)
    (actualTotal randSavings : ℤ) (j1 : Compound → Compound → ℤ)
    (j2a j2b : Compound → Compound → Compound → ℤ) :
    (optimizePitStrategy none year roundNum driver (Except.ok actualTotal) randSavings
        j1 j2a j2b).timeSavings
      = actualTotal - (optimizePitStrategy none year roundNum driver (Except.ok actualTotal)
          randSavings j1 j2a j2b).optimalStrategy.totalTime :=
  rfl

/-- C7 (confirmed): the dynamic context calculator returns
championship-pressure exactly 1.2 when the round number exceeds 15, exactly
1.0 for rounds 11–15 inclusive, and exactly 0.8 otherwise, whatever the
weather draws. -/
theorem championshipPressure_step (roundNum : ℤ) (u1 u2 : ℚ) :
    (calcDynamicFactors roundNum u1 u2).championshipPressure
      = if 15 < roundNum then 1.2
        else if 11 ≤ roundNum ∧ roundNum ≤ 15 then 1.0
        else 0.8 := by
  have h : (calcDynamicFactors roundNum u1 u2).championshipPressure
      = if roundNum > 15 then (1.2 : ℚ) else if roundNum > 10 then 1.0 else 0.8 := rfl
  rw [h]
  split_ifs <;> first | rfl | (exfalso; omega)

/-- C8 (confirmed): the historical performance estimator weights the
raw-skill scalar by the qualifying-aptitude scalar when the track's
overtaking difficulty exceeds 0.7, and by the race-craft scalar otherwise;
maps the combined score linearly into a position; adds the (Gaussian) noise
draw; and the clamped result always lies in [1, 20]. -/
theorem getHistoricalAvgPosition_spec (driver : String) (trackId : ℤ) (noise : ℚ) :
    getHistoricalAvgPosition driver trackId noise
      = max 1 (min 20
          (10 - (ratingGetD (driverRatings? driver) DriverRating.skill / 100
              * (if trackGetD (trackCharacteristics? trackId) TrackChar.overtakingDifficulty 0.5
                    > 0.7
                 then ratingGetD (driverRatings? driver) DriverRating.qualifying / 100
                 else ratingGetD (driverRatings? driver) DriverRating.raceCraft / 100)
            - 0.5) * 15 + noise))
    ∧ 1 ≤ getHistoricalAvgPosition driver trackId noise
    ∧ getHistoricalAvgPosition driver trackId noise ≤ 20 := by
  refine ⟨rfl, ?_, ?_⟩
  · exact le_max_left 1 _
  · exact max_le (by norm_num) (min_le_left _ _)

/-- C9 (confirmed): the model confidence is 1 minus 4 times the variance of
the win probabilities, clipped to [0, 1]; in particular it lies in [0, 1]
whatever the input variance. -/
theorem modelConfidence_spec (winProbs : List ℚ) (_h : winProbs ≠ []) :
    calculateModelConfidence winProbs = max 0 (min 1 (1 - 4 * varianceQ winProbs))
    ∧ 0 ≤ calculateModelConfidence winProbs
    ∧ calculateModelConfidence winProbs ≤ 1 := by
  refine ⟨?_, le_max_left 0 _, max_le (by norm_num) (min_le_left _ _)⟩
  unfold calculateModelConfidence
  rw [mul_comm (varianceQ winProbs) 4]

/-- Witness for `modelConfidence_spec` at the concrete nonempty list
`[0.5, 0.25]`. -/
theorem modelConfidence_spec_witness :
    (([0.5, 0.25] : List ℚ) ≠ [])
    ∧ (calculateModelConfidence [0.5, 0.25]
          = max 0 (min 1 (1 - 4 * varianceQ [0.5, 0.25]))
      ∧ 0 ≤ calculateModelConfidence [0.5, 0.25]
      ∧ calculateModelConfidence [0.5, 0.25] ≤ 1) :=
  ⟨by simp, modelConfidence_spec [0.5, 0.25] (by simp)⟩

/-- C2 (amended): the feature vector builder produces one fixed-order
vector: 9 competitor-rating scalars / 100, 4 team-rating scalars / 100,
7 track-profile scalars (red-flag probability is never emitted), 4
historical scalars upper-clipped to at most 1, 2 dynamic scalars, 2 one-hot
weather flags, and 1 synergy scalar — 29 elements in total, in that
order. -/
theorem buildFeatureVector_blocks (driver : String) (year roundNum : ℤ)
    (noise1 noise2 : ℚ) (dyn : DynamicFactors) :
    buildFeatureVector driver year roundNum noise1 noise2 dyn
      = driverFeatureBlock driver
        ++ teamFeatureBlock (getDriverTeam driver)
        ++ trackFeatureBlock roundNum
        ++ histFeatureBlock (getHistoricalPerformance driver roundNum noise1 noise2 3)
        ++ [dyn.seasonProgress, dyn.championshipPressure]
        ++ weatherFlags dyn.weatherCondition
        ++ [synergyGet driver (getDriverTeam driver)]
    ∧ (driverFeatureBlock driver).length = 9
    ∧ (teamFeatureBlock (getDriverTeam driver)).length = 4
    ∧ (trackFeatureBlock roundNum).length = 7
    ∧ (histFeatureBlock (getHistoricalPerformance driver roundNum noise1 noise2 3)).length = 4
    ∧ (weatherFlags dyn.weatherCondition).length = 2
    ∧ (buildFeatureVector driver year roundNum noise1 noise2 dyn).length = 29
    ∧ (histFeatureBlock (getHistoricalPerformance driver roundNum noise1 noise2 3)).Forall
        (fun x => x ≤ 1) := by
  refine ⟨rfl, rfl, rfl, rfl, rfl, rfl, rfl, ?_⟩
  simp only [histFeatureBlock, List.Forall]
  exact ⟨min_le_right _ _, min_le_right _ _, min_le_right _ _, min_le_right _ _⟩

/-- C2 (counterexample): the feature vector has 29 elements, not the
claimed 30 — the builder emits only 7 track-profile scalars (red-flag
probability is left out). -/
theorem buildFeatureVector_not_30 :
    (buildFeatureVector "VER" 2025 1 0 0 (calcDynamicFactors 1 1 0)).length = 29
    ∧ (buildFeatureVector "VER" 2025 1 0 0 (calcDynamicFactors 1 1 0)).length ≠ 30 := by
  constructor <;> decide

/-- C10 (confirmed): for a competitor absent from the rating and
team-assignment tables, the team lookup yields the sentinel
`"Unknown Team"`, all 13 driver/team rating slots default to 75/100, the
synergy slot defaults to 1.0, and a full 29-element vector is still
produced (the builder is a total function — nothing raises). -/
theorem buildFeatureVector_unknown_driver (driver : String) (year roundNum : ℤ)
    (noise1 noise2 : ℚ) (dyn : DynamicFactors)
    (hd : driverRatings? driver = none) (ht : driverTeam? driver = none) :
    getDriverTeam driver = "Unknown Team"
    ∧ buildFeatureVector driver year roundNum noise1 noise2 dyn
      = [0.75, 0.75, 0.75, 0.75, 0.75, 0.75, 0.75, 0.75, 0.75, 0.75, 0.75, 0.75, 0.75]
        ++ trackFeatureBlock roundNum
        ++ histFeatureBlock (getHistoricalPerformance driver roundNum noise1 noise2 3)
        ++ [dyn.seasonProgress, dyn.championshipPressure]
        ++ weatherFlags dyn.weatherCondition
        ++ [1]
    ∧ synergyGet driver (getDriverTeam driver) = 1
    ∧ (buildFeatureVector driver year roundNum noise1 noise2 dyn).length = 29 := by
  have hteam : getDriverTeam driver = "Unknown Team" := by
    simp [getDriverTeam, ht]
  have htp : teamPerformance? "Unknown Team" = none := rfl
  have hfind : driverTeamSynergyList.find?
      (fun p => decide (p.1 = (driver, "Unknown Team"))) = none := by
    rw [List.find?_eq_none]
    intro x hx
    fin_cases hx <;>
      (simp only [decide_eq_true_eq, Prod.mk.injEq]
       intro hEq
       exact absurd hEq.2 (by decide))
  have hsyn : synergyGet driver "Unknown Team" = 1 := by
    simp [synergyGet, lookupD, hfind]
  refine ⟨hteam, ?_, by rw [hteam]; exact hsyn, rfl⟩
  simp only [buildFeatureVector, hteam, htp, hd, hsyn, ratingGetD, teamGetD]
  norm_num [trackFeatureBlock, histFeatureBlock, weatherFlags]

/-- Witness for `buildFeatureVector_unknown_driver`: the identifier "XYZ"
is in none of the tables. -/
theorem buildFeatureVector_unknown_driver_witness :
    (driverRatings? "XYZ" = none ∧ driverTeam? "XYZ" = none)
    ∧ getDriverTeam "XYZ" = "Unknown Team" :=
  ⟨⟨rfl, rfl⟩,
   (buildFeatureVector_unknown_driver "XYZ" 2025 1 0 0 ⟨0, 1, Weather.dry, 0.25⟩
      rfl rfl).1⟩

/-- C3 (counterexample): a run whose primary pass yields 50 samples and
whose fallback iterations all raise ends with 50 samples — below the
minimum of 100 — and `train_models` then reports success (`True`) with no
error, silently fitting on the under-sized data. -/
theorem trainModels_silent_undersized :
    generateTrainingDataCount [some 50] (List.replicate 50 true) = 50
    ∧ trainModels (generateTrainingDataCount [some 50] (List.replicate 50 true)) false
        = true := by
  constructor <;> decide

/-- C3 (amended): when generation produces fewer than 100 samples after
both the primary and fallback passes, `train_models` does not fail — it
proceeds and returns `True` whenever the model fitting itself does not
raise; no sample-count check exists. -/
theorem trainModels_no_minimum_check (primary : List (Option ℕ)) (fb : List Bool)
    (_h : generateTrainingDataCount primary fb < 100) :
    trainModels (generateTrainingDataCount primary fb) false = true :=
  rfl

/-- Witness for `trainModels_no_minimum_check` at the concrete under-sized
run of `trainModels_silent_undersized`. -/
theorem trainModels_no_minimum_check_witness :
    generateTrainingDataCount [some 50] (List.replicate 50 true) < 100
    ∧ trainModels (generateTrainingDataCount [some 50] (List.replicate 50 true)) false
        = true :=
  ⟨by decide, trainModels_no_minimum_check [some 50] (List.replicate 50 true) (by decide)⟩

end F1
